import Mathlib

/-!
Verification of the crawl engine of the `webcrawler-go` repository against its
natural-language specification.

The Go source is shallowly embedded: pure string predicates become Lean
functions over `List Char`; the stateful crawl engine becomes explicit state
passing over a `CrawlState` record, with the HTTP round-trips abstracted as
oracle inputs (the classification and bookkeeping logic is translated from the
source line by line).  Go byte strings are modelled as `List Char`, which
agrees with the source for the ASCII data handled here.
-/

namespace Webcrawler

/-- Embeds Go `strings.Contains(hay, needle)`: `needle` occurs as a contiguous
substring of `hay`. -/
def containsSub (hay needle : List Char) : Bool := decide (needle <:+: hay)

/-- Embeds Go `strings.ToLower` (character-wise case folding; the signature
lists and bodies compared in the source are ASCII). -/
def lowerStr (s : List Char) : List Char := s.map Char.toLower

/-- The fixed signature list of `detectBotProtection` (crawler.go lines
925-942), in source order. -/
def botIndicators : List (List Char) :=
  [ "checking your browser".toList
  , "ddos protection".toList
  , "please enable javascript".toList
  , "access denied".toList
  , "security check".toList
  , "verify you are human".toList
  , "captcha".toList
  , "incapsula".toList
  , "perimeterx".toList
  , "sucuri".toList
  , "cloudflare".toList
  , "please wait while we verify".toList
  , "just a moment".toList
  , "ray id".toList
  , "attention required".toList
  , "sorry, you have been blocked".toList
  ]

/-- Embeds `detectBotProtection` (crawler.go lines 924-951): lowercase the body
and report whether any indicator occurs as a substring. -/
def detectBotProtection (body : List Char) : Bool :=
  botIndicators.any (fun indicator => containsSub (lowerStr body) indicator)

/-- The co-occurrence patterns of `detectSitemapBotProtection` (sitemap.go
lines 294-305), in source order; a pattern fires only when every listed string
occurs in the lowercased body. -/
def sitemapChallengePatterns : List (List (List Char)) :=
  [ [ "checking your browser".toList, "please wait".toList ]
  , [ "just a moment".toList, "enable javascript".toList ]
  , [ "ddos protection".toList, "please wait".toList ]
  , [ "attention required".toList, "cloudflare".toList ]
  , [ "sorry, you have been blocked".toList ]
  , [ "access denied".toList, "you don\x27t have permission".toList ]
  , [ "verify you are human".toList, "captcha".toList ]
  , [ "security check".toList, "please complete".toList ]
  ]

/-- Embeds `detectSitemapBotProtection` (sitemap.go lines 290-329): a
co-occurrence pattern where all required strings match, or a short page
(fewer than 2000 bytes) containing one of two challenge phrases. -/
def detectSitemapBotProtection (body : List Char) : Bool :=
  let bodyLower := lowerStr body
  if sitemapChallengePatterns.any
      (fun pat => pat.all (fun required => containsSub bodyLower required)) then
    true
  else if body.length < 2000 &&
      (containsSub bodyLower ("checking your browser".toList) ||
        containsSub bodyLower ("please enable javascript and cookies".toList)) then
    true
  else
    false

theorem containsSub_iff (hay needle : List Char) :
    containsSub hay needle = true ↔ needle <:+: hay := by
  simp [containsSub]

/-- If some indicator of the list occurs in the lowercased body, the main
classifier fires. -/
theorem detectBotProtection_of_indicator (body indicator : List Char)
    (hmem : indicator ∈ botIndicators)
    (hsub : containsSub (lowerStr body) indicator = true) :
    detectBotProtection body = true := by
  simp only [detectBotProtection, List.any_eq_true]
  exact ⟨indicator, hmem, hsub⟩

example : detectBotProtection ("Powered by Cloudflare".toList) = true := by decide
example : detectSitemapBotProtection ("Powered by Cloudflare".toList) = false := by decide

/-- The counters of `Stats` (crawler.go lines 65-89) that the claims under
verification mention; every field is updated by atomic add in the source, so
plain `Nat` increments model them. -/
structure Stats where
  pagesChecked : Nat
  pagesQueued : Nat
  errorCount : Nat
  blockedCount : Nat
  retryCount : Nat
  blockedRetried : Nat
  blockedRecovered : Nat
  status2xx : Nat
  status3xx : Nat
  status4xx : Nat
  status5xx : Nat
  skippedExternal : Nat
deriving DecidableEq

def Stats.init : Stats :=
  ⟨0, 0, 0, 0, 0, 0, 0, 0, 0, 0, 0, 0⟩

/-- Error values produced on the fetch paths.  The formatted messages of the
source (`fmt.Errorf`) are kept symbolic; `blockedStatus`, `rateLimited`,
`statusErr` and `botDetected` render as `"blocked: %d"`, `"rate limited"`,
`"status %d"` and `"bot protection detected"`, none of which can contain the
substring `"no such host"` (fixed words plus decimal digits), while transport
and body-read errors carry their text. -/
inductive ErrMsg where
  | blockedStatus (code : Nat)
  | rateLimited
  | statusErr (code : Nat)
  | botDetected
  | net (msg : List Char)
  | readErr (msg : List Char)
deriving DecidableEq

/-- Embeds the `strings.Contains(errStr, "no such host")` test of
`fetchWithRetry` (crawler.go line 543) on the modelled error values: only the
transport / body-read texts can contain the phrase. -/
def ErrMsg.hasNoSuchHost : ErrMsg → Bool
  | .net msg => containsSub msg ("no such host".toList)
  | .readErr msg => containsSub msg ("no such host".toList)
  | _ => false

deriving instance DecidableEq for Except

/-- One HTTP response as seen by the classifier: the status code, the result
of decoding and reading the body (`Except` models a gzip/read failure), and
the `Content-Type` header. -/
structure HTTPResponse where
  statusCode : Nat
  bodyResult : Except (List Char) (List Char)
  contentType : String
deriving DecidableEq

/-- The outcome of one HTTP round-trip, supplied to the embedded fetch
functions as an oracle: a transport-level error or a response. -/
inductive FetchInput where
  | netError (msg : List Char)
  | ok (resp : HTTPResponse)
deriving DecidableEq

/-- Result triple of `fetchPage` (crawler.go line 554):
`(success, blocked, err)`. -/
structure FetchResult where
  success : Bool
  blocked : Bool
  err : Option ErrMsg
deriving DecidableEq

/-- The status-code bucket switch of `fetchPage` (crawler.go lines 590-599). -/
def bucketStatus (st : Stats) (code : Nat) : Stats :=
  if 200 ≤ code ∧ code < 300 then { st with status2xx := st.status2xx + 1 }
  else if 300 ≤ code ∧ code < 400 then { st with status3xx := st.status3xx + 1 }
  else if 400 ≤ code ∧ code < 500 then { st with status4xx := st.status4xx + 1 }
  else if 500 ≤ code then { st with status5xx := st.status5xx + 1 }
  else st

/-- Embeds the classification logic of `fetchPage` (crawler.go lines 554-658)
over an oracle round-trip result.  The content pipeline on the success path
(mode dispatch and link extraction, lines 639-655) only routes the body
onward and is modelled separately; it touches none of the counters or the
classification below. -/
def fetchPage (st : Stats) (input : FetchInput) : Stats × FetchResult :=
  let st := { st with pagesChecked := st.pagesChecked + 1 }
  match input with
  | .netError msg => (st, ⟨false, false, some (.net msg)⟩)
  | .ok resp =>
    let st := bucketStatus st resp.statusCode
    if resp.statusCode = 403 ∨ resp.statusCode = 503 then
      ({ st with blockedCount := st.blockedCount + 1 },
        ⟨false, true, some (.blockedStatus resp.statusCode)⟩)
    else if resp.statusCode = 429 then
      ({ st with blockedCount := st.blockedCount + 1 },
        ⟨false, true, some .rateLimited⟩)
    else if 400 ≤ resp.statusCode then
      (st, ⟨false, false, some (.statusErr resp.statusCode)⟩)
    else
      match resp.bodyResult with
      | .error msg => (st, ⟨false, false, some (.readErr msg)⟩)
      | .ok body =>
        if detectBotProtection body then
          ({ st with blockedCount := st.blockedCount + 1 },
            ⟨false, true, some .botDetected⟩)
        else
          (st, ⟨true, false, none⟩)

/-- Embeds `BlockedPage` (crawler.go lines 91-95).  The `lastError` field is
`none` when the source leaves it at the zero value. -/
structure BlockedPage where
  url : String
  attempts : Nat
  lastError : Option ErrMsg
deriving DecidableEq

/-- Store on a key-to-value map (`sync.Map.Store`): replace any existing
binding of the key and insert the new one. -/
def storeAssoc (m : List (String × BlockedPage)) (k : String) (v : BlockedPage) :
    List (String × BlockedPage) :=
  (k, v) :: m.filter (fun p => p.1 ≠ k)

/-- Lookup on a key-to-value map (`sync.Map.Load`). -/
def lookupAssoc (m : List (String × BlockedPage)) (k : String) : Option BlockedPage :=
  (m.find? (fun p => p.1 = k)).map Prod.snd

/-- Delete on a key-to-value map (`sync.Map.Delete`). -/
def deleteAssoc (m : List (String × BlockedPage)) (k : String) :
    List (String × BlockedPage) :=
  m.filter (fun p => p.1 ≠ k)

/-- The shared mutable crawl state (crawler.go lines 97-111): the statistics
counters, the blocked queue, the frontier membership set `visited`, and the
`successfulHit` flag.  The sequential model linearizes the atomic updates of
the source. -/
structure CrawlState where
  stats : Stats
  blockedQueue : List (String × BlockedPage)
  visited : List String
  successfulHit : Bool
deriving DecidableEq

def CrawlState.init : CrawlState :=
  ⟨Stats.init, [], [], false⟩

/-- The statement after the retry loop of `fetchWithRetry` (crawler.go lines
549-551): a final non-nil error increments the error counter. -/
def applyFinalError (s : CrawlState) (lastErr : Option ErrMsg) : CrawlState :=
  match lastErr with
  | some _ => { s with stats := { s.stats with errorCount := s.stats.errorCount + 1 } }
  | none => s

/-- The retry loop of `fetchWithRetry` (crawler.go lines 519-547), as a
fuel-indexed recursion: `fuel` is the number of loop iterations still allowed
(`maxRetries + 1 - attempt`), `attempt` the current attempt index, and
`responses` the oracle giving the round-trip outcome of each attempt.  A
retry (`attempt > 0`) increments the retry counter; success sets the
`successfulHit` flag and returns; a blocked classification stores a
`BlockedPage` with `Attempts: 0` and returns; a `"no such host"` error breaks
out of the loop; otherwise the loop continues with the error retained. -/
def fetchWithRetryLoop (link : String) (responses : Nat → FetchInput) :
    Nat → Nat → Option ErrMsg → CrawlState → CrawlState
  | 0, _, lastErr, s => applyFinalError s lastErr
  | fuel + 1, attempt, _lastErr, s =>
    let s :=
      if 0 < attempt then
        { s with stats := { s.stats with retryCount := s.stats.retryCount + 1 } }
      else s
    let r := fetchPage s.stats (responses attempt)
    let s := { s with stats := r.1 }
    if r.2.success then
      { s with successfulHit := true }
    else if r.2.blocked then
      { s with blockedQueue := storeAssoc s.blockedQueue link ⟨link, 0, r.2.err⟩ }
    else
      let lastErr := r.2.err
      if (r.2.err.getD .botDetected).hasNoSuchHost then
        applyFinalError s lastErr
      else
        fetchWithRetryLoop link responses fuel (attempt + 1) lastErr s

/-- Embeds `fetchWithRetry` (crawler.go lines 516-552) with `maxRetries` from
the configuration. -/
def fetchWithRetry (maxRetries : Nat) (link : String) (responses : Nat → FetchInput)
    (s : CrawlState) : CrawlState :=
  fetchWithRetryLoop link responses (maxRetries + 1) 0 none s

example :
    (fetchWithRetry 1 "u" (fun _ => .ok ⟨404, .ok [], "text/html"⟩)
      CrawlState.init).stats.pagesChecked = 2 := by decide

example :
    (fetchWithRetry 3 "u" (fun _ => .ok ⟨403, .ok [], "text/html"⟩)
      CrawlState.init).stats.blockedCount = 1 := by decide

/-- Set insert on the `visited` membership set (`sync.Map.Store` of a key used
as a set element). -/
def insertVisited (v : List String) (k : String) : List String :=
  if k ∈ v then v else k :: v

/-- Set removal on the `visited` membership set (`sync.Map.Delete`). -/
def eraseVisited (v : List String) (k : String) : List String :=
  v.filter (fun x => x ≠ k)

/-- Embeds `fetchPageForRetry` (crawler.go lines 660-740) over an oracle
round-trip result; returns the updated state and the success flag.  A
4xx/5xx status re-inserts the URL into the blocked queue only when it is
403, 503 or 429; a body matching the bot-protection signatures re-inserts
likewise; every other failure returns `false` without touching the queue.
On success the 2xx counter is bumped, the content pipeline (modelled
separately) runs, and the URL is stored back into `visited`. -/
def fetchPageForRetry (s : CrawlState) (link : String) (retryAttempt : Nat)
    (input : FetchInput) : CrawlState × Bool :=
  let s := { s with stats := { s.stats with pagesChecked := s.stats.pagesChecked + 1 } }
  match input with
  | .netError _ => (s, false)
  | .ok resp =>
    if 400 ≤ resp.statusCode then
      if resp.statusCode = 403 ∨ resp.statusCode = 503 ∨ resp.statusCode = 429 then
        ({ s with blockedQueue := storeAssoc s.blockedQueue link ⟨link, retryAttempt, none⟩ },
          false)
      else
        (s, false)
    else
      match resp.bodyResult with
      | .error _ => (s, false)
      | .ok body =>
        if detectBotProtection body then
          ({ s with blockedQueue := storeAssoc s.blockedQueue link ⟨link, retryAttempt, none⟩ },
            false)
        else
          ({ s with
              stats := { s.stats with status2xx := s.stats.status2xx + 1 },
              visited := insertVisited s.visited link },
            true)

/-- One iteration of the `blockedQueue.Range` callback in `retryBlockedPages`
(crawler.go lines 241-272): an entry whose attempt count has reached the
configured pass limit is skipped; otherwise the attempt count is incremented,
the retried counter is bumped, the entry is deleted from both the blocked
queue and `visited`, the page is re-fetched, and a successful re-fetch bumps
the recovered counter. -/
def retryOneEntry (cfgPasses : Nat) (outcome : String → FetchInput) (s : CrawlState)
    (url : String) (page : BlockedPage) : CrawlState :=
  if cfgPasses ≤ page.attempts then s
  else
    let att := page.attempts + 1
    let s := { s with
      stats := { s.stats with blockedRetried := s.stats.blockedRetried + 1 },
      blockedQueue := deleteAssoc s.blockedQueue url,
      visited := eraseVisited s.visited url }
    let r := fetchPageForRetry s url att (outcome url)
    if r.2 then
      { r.1 with
        stats := { r.1.stats with blockedRecovered := r.1.stats.blockedRecovered + 1 } }
    else
      r.1

/-- Sequential fold of `retryOneEntry` over a snapshot of the blocked queue. -/
def retryProcess (cfgPasses : Nat) (outcome : String → FetchInput) :
    List (String × BlockedPage) → CrawlState → CrawlState
  | [], s => s
  | (url, page) :: rest, s =>
    retryProcess cfgPasses outcome rest (retryOneEntry cfgPasses outcome s url page)

/-- Embeds `retryBlockedPages` (crawler.go lines 240-273): iterate the retry
step over the entries of the blocked queue.  The `sync.Map.Range` of the
source is modelled as a fold over the snapshot taken at entry. -/
def retryBlockedPages (cfgPasses : Nat) (outcome : String → FetchInput)
    (s : CrawlState) : CrawlState :=
  retryProcess cfgPasses outcome s.blockedQueue s

/-- Embeds `crawl` (crawler.go lines 499-514): the admission gate checks and
inserts the raw URL string in `visited` (no normalization), bumps the queued
counter on first admission, and runs `fetchWithRetry`; the spawned goroutine
is linearized here. -/
def crawl (maxRetries : Nat) (responses : Nat → FetchInput) (link : String)
    (s : CrawlState) : CrawlState :=
  if link ∈ s.visited then s
  else
    fetchWithRetry maxRetries link responses
      { s with
        visited := insertVisited s.visited link,
        stats := { s.stats with pagesQueued := s.stats.pagesQueued + 1 } }

/-- The Phase-2 pass loop of `Start` (crawler.go lines 205-225): up to
`cfgPasses` passes, stopping early when the blocked queue is empty;
`retryOutcome` gives the round-trip outcome per pass and URL.  `fuel` counts
the passes still allowed. -/
def retryPassesLoop (cfgPasses : Nat) (retryOutcome : Nat → String → FetchInput) :
    Nat → CrawlState → CrawlState
  | 0, s => s
  | fuel + 1, s =>
    if s.blockedQueue.length = 0 then s
    else
      let pass := cfgPasses - fuel
      retryPassesLoop cfgPasses retryOutcome fuel
        (retryBlockedPages cfgPasses (retryOutcome pass) s)

/-- Embeds `Start` (crawler.go lines 148-229) for the branch with alternative
entry points configured and `RetryBlockedPages` enabled, restricted to runs in
which every phase-1 fetch ends in a transport error, a blocked classification,
or a success whose content type is not `text/html` — on those paths the
source discovers no further links, so phase 1 is exactly the fold of `crawl`
over the entry points.  After phase 1 the start URL is pre-seeded directly
into the blocked queue with `Attempts: 0` (line 198) without touching the
blocked counter, and then the Phase-2 pass loop runs. -/
def startWithAltEntries (maxRetries cfgPasses : Nat) (altEntries : List String)
    (startU : String) (phase1 : String → Nat → FetchInput)
    (retryOutcome : Nat → String → FetchInput) : CrawlState :=
  let s := altEntries.foldl
    (fun s e => crawl maxRetries (phase1 e) e s) CrawlState.init
  let s := { s with blockedQueue := storeAssoc s.blockedQueue startU ⟨startU, 0, none⟩ }
  retryPassesLoop cfgPasses retryOutcome cfgPasses s

example :
    (startWithAltEntries 0 3 ["https://site.test/alt"] "https://site.test/"
      (fun _ _ => .netError ("connection refused".toList))
      (fun _ _ => .netError ("connection refused".toList))).stats.blockedRetried = 1 := by
  decide

example :
    (startWithAltEntries 0 3 ["https://site.test/alt"] "https://site.test/"
      (fun _ _ => .netError ("connection refused".toList))
      (fun _ _ => .netError ("connection refused".toList))).stats.blockedCount = 0 := by
  decide

/-- Split a character list at the first occurrence of `c`: the part before,
and `some` part after when `c` occurs. -/
def splitFirst (c : Char) : List Char → List Char × Option (List Char)
  | [] => ([], none)
  | x :: xs =>
    if x = c then ([], some xs)
    else
      let r := splitFirst c xs
      (x :: r.1, r.2)

/-- Embeds Go `net/url.URL` for the subset used by this crawler: scheme, host,
path, raw query and fragment, without userinfo, port handling, opaque forms or
percent-escaping (none of which occur in the URL shapes this development
evaluates).  Absent query and fragment are the empty string, as in the Go
struct. -/
structure GoURL where
  scheme : String
  host : String
  path : String
  rawQuery : String
  fragment : String
deriving DecidableEq

/-- Embeds Go `url.Parse` for the subset of `GoURL`: the fragment is split at
the first `#`, the query at the first `?`, a scheme is a leading
letter-initial run of letter/digit/`+`/`-`/`.` before a `:` that precedes any
`/`, and an authority after `//` extends to the next `/`.  On this subset the
Go parser never fails, so the error branches of the callers are not taken. -/
def parseGoURL (s : String) : GoURL :=
  let cs := s.toList
  let fr := splitFirst '#' cs
  let fragment := (fr.2.getD []).asString
  let qr := splitFirst '?' fr.1
  let rawQuery := (qr.2.getD []).asString
  let beforeQuery := qr.1
  let sr := splitFirst ':' beforeQuery
  let schemeOk :=
    sr.2.isSome ∧ sr.1 ≠ [] ∧
    (sr.1.headD 'a').isAlpha ∧
    sr.1.all (fun ch => ch.isAlphanum ∨ ch = '+' ∨ ch = '-' ∨ ch = '.')
  let scheme := if schemeOk then sr.1.map Char.toLower else []
  let rest := if schemeOk then sr.2.getD [] else beforeQuery
  if rest.take 2 = ['/', '/'] then
    let hr := splitFirst '/' (rest.drop 2)
    let host := hr.1
    let path :=
      match hr.2 with
      | some p => '/' :: p
      | none => []
    ⟨scheme.asString, host.asString, path.asString, rawQuery, fragment⟩
  else
    ⟨scheme.asString, "", rest.asString, rawQuery, fragment⟩

/-- Embeds Go `URL.String` for the subset of `GoURL`: `scheme:`, `//host` when
a host is present, then path, `?query` and `#fragment` when non-empty. -/
def GoURL.render (u : GoURL) : String :=
  (if u.scheme ≠ "" then u.scheme ++ ":" else "")
    ++ (if u.host ≠ "" then "//" ++ u.host else "")
    ++ u.path
    ++ (if u.rawQuery ≠ "" then "?" ++ u.rawQuery else "")
    ++ (if u.fragment ≠ "" then "#" ++ u.fragment else "")

example : parseGoURL "https://x/p#frag1" = ⟨"https", "x", "/p", "", "frag1"⟩ := by decide
example : parseGoURL "sub.html" = ⟨"", "", "sub.html", "", ""⟩ := by decide
example : (parseGoURL "https://x/p?a=1#f").render = "https://x/p?a=1#f" := by decide

/-- Embeds `normalizeURL` (part_000 lines 738-753): parse, clear the fragment,
rewrite an empty path to `/`, and serialize.  The parse-error fallback of the
source (return the input unchanged) is unreachable on the modelled subset. -/
def normalizeURL (link : String) : String :=
  let u := parseGoURL link
  let u := { u with fragment := "" }
  let u := if u.path = "" then { u with path := "/" } else u
  u.render

example : normalizeURL "https://x/p#frag1" = "https://x/p" := by decide
example : normalizeURL "https://x" = "https://x/" := by decide

/-- Split a character list on a separator character (Go `strings.Split`);
always at least one part. -/
def splitOnChar (c : Char) (cs : List Char) : List (List Char) :=
  cs.foldr
    (fun x acc =>
      match acc with
      | [] => [[x]]
      | a :: rest => if x = c then [] :: a :: rest else (x :: a) :: rest)
    [[]]

/-- Join character lists with a separator character (Go `strings.Join`). -/
def joinChar (c : Char) : List (List Char) → List Char
  | [] => []
  | [x] => x
  | x :: y :: xs => x ++ c :: joinChar c (y :: xs)

/-- The `base[:strings.LastIndex(base, "/")+1]` step of Go
`net/url.resolvePath`: everything up to and including the last slash; empty
when `base` has no slash. -/
def upToLastSlash (s : List Char) : List Char :=
  let parts := splitOnChar '/' s
  if parts.length ≤ 1 then [] else joinChar '/' parts.dropLast ++ ['/']

/-- Embeds Go `net/url.resolvePath`: merge `ref` onto `base` per RFC 3986 and
remove dot segments. -/
def resolvePathGo (base ref : List Char) : List Char :=
  let full :=
    if ref = [] then base
    else if ref.head? ≠ some '/' then upToLastSlash base ++ ref
    else ref
  if full = [] then []
  else
    let src := splitOnChar '/' full
    let dst := src.foldl
      (fun d e =>
        if e = ['.'] then d
        else if e = ['.', '.'] then d.dropLast
        else d ++ [e])
      ([] : List (List Char))
    let dst :=
      match src.getLast? with
      | some e => if e = ['.'] ∨ e = ['.', '.'] then dst ++ [([] : List Char)] else dst
      | none => dst
    let joined := joinChar '/' dst
    '/' :: (match joined with
      | '/' :: rest => rest
      | l => l)

example : (resolvePathGo "/a/b/".toList "sub.html".toList).asString = "/a/b/sub.html" := by
  decide
example : (resolvePathGo "/".toList "sub.html".toList).asString = "/sub.html" := by decide
example : (resolvePathGo "/a/b".toList "../c".toList).asString = "/c" := by decide

/-- Embeds Go `URL.ResolveReference` on the `GoURL` subset (no userinfo or
opaque forms): an absolute reference wins outright; an empty path-and-query
reference inherits the base query (and fragment when its own is empty);
otherwise the reference path is merged onto the base path. -/
def resolveReference (u ref : GoURL) : GoURL :=
  let out := ref
  let out := if ref.scheme = "" then { out with scheme := u.scheme } else out
  if ref.scheme ≠ "" ∨ ref.host ≠ "" then
    { out with path := (resolvePathGo ref.path.toList []).asString }
  else
    let out :=
      if ref.path = "" ∧ ref.rawQuery = "" then
        let out := { out with rawQuery := u.rawQuery }
        if ref.fragment = "" then { out with fragment := u.fragment } else out
      else out
    { out with host := u.host, path := (resolvePathGo u.path.toList ref.path.toList).asString }

example :
    (resolveReference (parseGoURL "https://h/a/b/") (parseGoURL "sub.html")).render
      = "https://h/a/b/sub.html" := by decide
example :
    (resolveReference (parseGoURL "https://h/") (parseGoURL "sub.html")).render
      = "https://h/sub.html" := by decide

/-- The admission decision of `crawl` (crawler.go lines 500-503): an atomic
check-and-insert of the raw URL string into `visited`, with no normalization;
returns whether the URL was admitted and the updated set. -/
def crawlAdmit (visitedSet : List String) (link : String) : Bool × List String :=
  if link ∈ visitedSet then (false, visitedSet) else (true, link :: visitedSet)

/-- The admission gate of `crawlForPDF` (part_000 lines 452-464): normalize
the URL with `normalizeURL`, then atomically check-and-insert the normalized
form; returns whether the URL was admitted and the updated set. -/
def crawlForPDFAdmit (visitedSet : List String) (link : String) : Bool × List String :=
  let l := normalizeURL link
  if l ∈ visitedSet then (false, visitedSet) else (true, l :: visitedSet)

/-- The action the per-href body of `extractInternalLinks` takes. -/
inductive LinkAction where
  | skipped
  | external
  | enqueue (next : String)
deriving DecidableEq

/-- The per-href body of `extractInternalLinks` (crawler.go lines 893-915):
skip hrefs whose scheme is neither empty nor http(s), resolve the href
against the package-global `baseURL` (the parsed start URL of the crawl; the
page URL passed to `extractInternalLinks` is not consulted), count and drop
results whose host differs from the base host, and hand every survivor to
`crawl`.  The HTML traversal collecting the hrefs (`golang.org/x/net/html`)
is external and abstracted to the href list. -/
def hrefAction (base : GoURL) (href : String) : LinkAction :=
  let u := parseGoURL href
  if u.scheme ≠ "" ∧ u.scheme ≠ "http" ∧ u.scheme ≠ "https" then .skipped
  else
    let next := (resolveReference base u).render
    let nextURL := parseGoURL next
    if nextURL.host ≠ base.host then .external
    else .enqueue next

/-- The state effect of one href in the `extractInternalLinks` loop: a skipped
href leaves the state unchanged, a cross-host href bumps the external-skip
counter, and a same-host href is handed to `crawl`. -/
def processHref (maxRetries : Nat) (responses : Nat → FetchInput) (base : GoURL)
    (s : CrawlState) (href : String) : CrawlState :=
  match hrefAction base href with
  | .skipped => s
  | .external =>
    { s with stats := { s.stats with skippedExternal := s.stats.skippedExternal + 1 } }
  | .enqueue next => crawl maxRetries responses next s

example : hrefAction (parseGoURL "https://h/") "sub.html"
    = .enqueue "https://h/sub.html" := by decide
example : hrefAction (parseGoURL "https://h/") "mailto:x@y" = .skipped := by decide
example : hrefAction (parseGoURL "https://h/") "https://other/except" = .external := by
  decide

/-- Phase of one spawned fetch task with respect to the semaphore `sema`
(crawler.go lines 101, 156, 506-513): `waiting` after `wg.Add(1)` / `go`
but before the slot send, `fetching` while holding a slot — the interval in
which `fetchWithRetry` and hence all network I/O of the task runs — and
`done` after the deferred slot release. -/
inductive TaskPhase where
  | waiting
  | fetching
  | done
deriving DecidableEq

/-- Number of tasks currently holding a semaphore slot. -/
def countFetching (ts : List TaskPhase) : Nat :=
  ts.countP (fun t => t = .fetching)

/-- Interleaving steps of the task pool against the semaphore of capacity
`cap` (`sema = make(chan struct, cfg.MaxConcurrency)`, crawler.go line 156):
a task is spawned; a waiting task acquires a slot — the buffered-channel send
`sema <- struct` succeeds only while fewer than `cap` slots are held; a
fetching task releases its slot — the source releases via `defer` immediately
after the acquire (line 510), so the release fires on every return path. -/
inductive SchedStep (cap : Nat) : List TaskPhase → List TaskPhase → Prop
  | spawn (ts : List TaskPhase) : SchedStep cap ts (ts ++ [.waiting])
  | acquire (ts : List TaskPhase) (i : Nat) (h : ts.get? i = some .waiting)
      (hcap : countFetching ts < cap) : SchedStep cap ts (ts.set i .fetching)
  | release (ts : List TaskPhase) (i : Nat) (h : ts.get? i = some .fetching) :
      SchedStep cap ts (ts.set i .done)

/-- States of the task pool reachable from the start of a run (no tasks). -/
inductive SchedReachable (cap : Nat) : List TaskPhase → Prop
  | init : SchedReachable cap []
  | step {ts ts' : List TaskPhase} : SchedReachable cap ts → SchedStep cap ts ts' →
      SchedReachable cap ts'

theorem countFetching_append (a b : List TaskPhase) :
    countFetching (a ++ b) = countFetching a + countFetching b := by
  simp [countFetching, List.countP_append]

theorem countFetching_set (ts : List TaskPhase) (i : Nat) (a b : TaskPhase)
    (h : ts.get? i = some a) :
    countFetching (ts.set i b) + (if a = .fetching then 1 else 0)
      = countFetching ts + (if b = .fetching then 1 else 0) := by
  induction ts generalizing i with
  | nil => simp at h
  | cons x xs ih =>
    cases i with
    | zero =>
      simp only [List.get?] at h
      cases h
      simp [countFetching, List.countP_cons]
      rcases hb : (b = TaskPhase.fetching : Bool) <;>
        rcases ha : (a = TaskPhase.fetching : Bool) <;> simp_all
    | succ j =>
      simp only [List.get?] at h
      have := ih j h
      simp only [List.set, countFetching, List.countP_cons] at *
      omega

/-- Helper for finding a key just stored in the queue. -/
theorem lookupAssoc_store (m : List (String × BlockedPage)) (k : String) (v : BlockedPage) :
    lookupAssoc (storeAssoc m k v) k = some v := by
  simp [lookupAssoc, storeAssoc, List.find?]

/-- Helper: a deleted key is absent. -/
theorem lookupAssoc_delete (m : List (String × BlockedPage)) (k : String) :
    lookupAssoc (deleteAssoc m k) k = none := by
  simp only [lookupAssoc, deleteAssoc]
  rw [List.find?_eq_none.mpr]
  · rfl
  · intro p hp
    have := List.of_mem_filter hp
    simpa using this

theorem bucketStatus_counters (st : Stats) (code : Nat) :
    (bucketStatus st code).pagesChecked = st.pagesChecked
    ∧ (bucketStatus st code).retryCount = st.retryCount
    ∧ (bucketStatus st code).errorCount = st.errorCount
    ∧ (bucketStatus st code).blockedCount = st.blockedCount
    ∧ (bucketStatus st code).blockedRetried = st.blockedRetried
    ∧ (bucketStatus st code).blockedRecovered = st.blockedRecovered := by
  simp only [bucketStatus]
  split_ifs <;> simp

theorem fetchPage_counters (st : Stats) (i : FetchInput) :
    (fetchPage st i).1.pagesChecked = st.pagesChecked + 1
    ∧ (fetchPage st i).1.retryCount = st.retryCount
    ∧ (fetchPage st i).1.errorCount = st.errorCount
    ∧ (fetchPage st i).1.blockedRetried = st.blockedRetried
    ∧ (fetchPage st i).1.blockedRecovered = st.blockedRecovered := by
  rcases i with msg | ⟨code, br, ct⟩
  · simp [fetchPage]
  · obtain ⟨h1, h2, h3, h4, h5, h6⟩ :=
      bucketStatus_counters { st with pagesChecked := st.pagesChecked + 1 } code
    simp only [fetchPage]
    rcases br with e | body
    · split_ifs <;> simp_all
    · rcases hd : detectBotProtection body <;> split_ifs <;> simp_all

theorem applyFinalError_effect (s : CrawlState) (le : Option ErrMsg) :
    (applyFinalError s le).stats.pagesChecked = s.stats.pagesChecked
    ∧ (applyFinalError s le).stats.retryCount = s.stats.retryCount
    ∧ (applyFinalError s le).stats.blockedCount = s.stats.blockedCount
    ∧ (applyFinalError s le).stats.blockedRetried = s.stats.blockedRetried
    ∧ (applyFinalError s le).stats.blockedRecovered = s.stats.blockedRecovered
    ∧ (applyFinalError s le).blockedQueue = s.blockedQueue
    ∧ (applyFinalError s le).visited = s.visited := by
  cases le <;> simp [applyFinalError]

theorem fetchWithRetryLoop_retryPair (link : String) (responses : Nat → FetchInput) :
    ∀ (fuel attempt : Nat) (le : Option ErrMsg) (s : CrawlState),
      (fetchWithRetryLoop link responses fuel attempt le s).stats.blockedRetried
          = s.stats.blockedRetried
      ∧ (fetchWithRetryLoop link responses fuel attempt le s).stats.blockedRecovered
          = s.stats.blockedRecovered := by
  intro fuel
  induction fuel with
  | zero =>
    intro attempt le s
    obtain ⟨_, _, _, h4, h5, _, _⟩ := applyFinalError_effect s le
    exact ⟨h4, h5⟩
  | succ n ih =>
    intro attempt le s
    simp only [fetchWithRetryLoop]
    set s1 : CrawlState :=
      if 0 < attempt then
        { s with stats := { s.stats with retryCount := s.stats.retryCount + 1 } }
      else s with hs1
    have hs1r : s1.stats.blockedRetried = s.stats.blockedRetried
        ∧ s1.stats.blockedRecovered = s.stats.blockedRecovered := by
      rw [hs1]; split_ifs <;> simp
    obtain ⟨_, _, _, hp4, hp5⟩ := fetchPage_counters s1.stats (responses attempt)
    set r := fetchPage s1.stats (responses attempt) with hr
    split_ifs
    · simp only []
      exact ⟨by simp [hp4, hs1r.1], by simp [hp5, hs1r.2]⟩
    · exact ⟨by simp [hp4, hs1r.1], by simp [hp5, hs1r.2]⟩
    · obtain ⟨_, _, _, h4, h5, _, _⟩ :=
        applyFinalError_effect { s1 with stats := r.1 } r.2.err
      exact ⟨by simp [h4, hp4, hs1r.1], by simp [h5, hp5, hs1r.2]⟩
    · obtain ⟨ih1, ih2⟩ := ih (attempt + 1) r.2.err { s1 with stats := r.1 }
      exact ⟨by simp [ih1, hp4, hs1r.1], by simp [ih2, hp5, hs1r.2]⟩

theorem fetchPageForRetry_retryPair (s : CrawlState) (link : String) (att : Nat)
    (i : FetchInput) :
    (fetchPageForRetry s link att i).1.stats.blockedRetried = s.stats.blockedRetried
    ∧ (fetchPageForRetry s link att i).1.stats.blockedRecovered
        = s.stats.blockedRecovered := by
  rcases i with msg | ⟨code, br, ct⟩
  · simp [fetchPageForRetry]
  · simp only [fetchPageForRetry]
    rcases br with e | body
    · split_ifs <;> simp_all
    · rcases hd : detectBotProtection body <;> split_ifs <;> simp_all

/-- The first inequality of the claimed counter chain: recovered pages never
outnumber blocked-retry attempts. -/
def recoveredWithinRetried (s : CrawlState) : Prop :=
  s.stats.blockedRecovered ≤ s.stats.blockedRetried

theorem retryOneEntry_recRet (cfgPasses : Nat) (outcome : String → FetchInput)
    (s : CrawlState) (url : String) (page : BlockedPage)
    (h : recoveredWithinRetried s) :
    recoveredWithinRetried (retryOneEntry cfgPasses outcome s url page) := by
  simp only [retryOneEntry, recoveredWithinRetried] at *
  split_ifs with h1 h2
  · exact h
  · obtain ⟨hr1, hr2⟩ := fetchPageForRetry_retryPair
      { s with
        stats := { s.stats with blockedRetried := s.stats.blockedRetried + 1 },
        blockedQueue := deleteAssoc s.blockedQueue url,
        visited := eraseVisited s.visited url } url (page.attempts + 1) (outcome url)
    simp at hr1 hr2 ⊢
    omega
  · obtain ⟨hr1, hr2⟩ := fetchPageForRetry_retryPair
      { s with
        stats := { s.stats with blockedRetried := s.stats.blockedRetried + 1 },
        blockedQueue := deleteAssoc s.blockedQueue url,
        visited := eraseVisited s.visited url } url (page.attempts + 1) (outcome url)
    simp at hr1 hr2 ⊢
    omega

theorem retryProcess_recRet (cfgPasses : Nat) (outcome : String → FetchInput) :
    ∀ (entries : List (String × BlockedPage)) (s : CrawlState),
      recoveredWithinRetried s →
      recoveredWithinRetried (retryProcess cfgPasses outcome entries s) := by
  intro entries
  induction entries with
  | nil => intro s h; exact h
  | cons e rest ih =>
    intro s h
    exact ih _ (retryOneEntry_recRet cfgPasses outcome s e.1 e.2 h)

theorem retryBlockedPages_recRet (cfgPasses : Nat) (outcome : String → FetchInput)
    (s : CrawlState) (h : recoveredWithinRetried s) :
    recoveredWithinRetried (retryBlockedPages cfgPasses outcome s) :=
  retryProcess_recRet cfgPasses outcome s.blockedQueue s h

theorem fetchWithRetry_recRet (maxRetries : Nat) (link : String)
    (responses : Nat → FetchInput) (s : CrawlState) (h : recoveredWithinRetried s) :
    recoveredWithinRetried (fetchWithRetry maxRetries link responses s) := by
  obtain ⟨h1, h2⟩ :=
    fetchWithRetryLoop_retryPair link responses (maxRetries + 1) 0 none s
  simp only [recoveredWithinRetried, fetchWithRetry] at *
  omega

theorem crawl_recRet (maxRetries : Nat) (responses : Nat → FetchInput) (link : String)
    (s : CrawlState) (h : recoveredWithinRetried s) :
    recoveredWithinRetried (crawl maxRetries responses link s) := by
  simp only [crawl]
  split_ifs
  · exact h
  · exact fetchWithRetry_recRet _ _ _ _ h

theorem retryPassesLoop_recRet (cfgPasses : Nat)
    (retryOutcome : Nat → String → FetchInput) :
    ∀ (fuel : Nat) (s : CrawlState), recoveredWithinRetried s →
      recoveredWithinRetried (retryPassesLoop cfgPasses retryOutcome fuel s) := by
  intro fuel
  induction fuel with
  | zero => intro s h; exact h
  | succ n ih =>
    intro s h
    simp only [retryPassesLoop]
    split_ifs
    · exact h
    · exact ih _ (retryBlockedPages_recRet _ _ _ h)

theorem startWithAltEntries_recRet (maxRetries cfgPasses : Nat)
    (altEntries : List String) (startU : String) (phase1 : String → Nat → FetchInput)
    (retryOutcome : Nat → String → FetchInput) :
    recoveredWithinRetried
      (startWithAltEntries maxRetries cfgPasses altEntries startU phase1 retryOutcome) := by
  simp only [startWithAltEntries]
  apply retryPassesLoop_recRet
  have hfold : ∀ (es : List String) (s : CrawlState), recoveredWithinRetried s →
      recoveredWithinRetried
        (es.foldl (fun s e => crawl maxRetries (phase1 e) e s) s) := by
    intro es
    induction es with
    | nil => intro s h; exact h
    | cons e rest ih =>
      intro s h
      exact ih _ (crawl_recRet _ _ _ _ h)
  have h0 : recoveredWithinRetried CrawlState.init := by
    simp [recoveredWithinRetried, CrawlState.init, Stats.init]
  exact hfold altEntries CrawlState.init h0

/-- C1: for every fetch whose HTTP status is 200 and whose decoded body
contains the signature string "checking your browser" case-insensitively,
`fetchPage` classifies the outcome as blocked (blocked = true, blocked
counter incremented), never as success: the body-signature check is applied
even though the status code indicates success. -/
theorem C1_status200_signature_is_blocked (st : Stats) (body : List Char) (ct : String)
    (h : containsSub (lowerStr body) ("checking your browser".toList) = true) :
    (fetchPage st (.ok ⟨200, .ok body, ct⟩)).2.blocked = true
    ∧ (fetchPage st (.ok ⟨200, .ok body, ct⟩)).2.success = false
    ∧ (fetchPage st (.ok ⟨200, .ok body, ct⟩)).1.blockedCount = st.blockedCount + 1 := by
  have hdet : detectBotProtection body = true :=
    detectBotProtection_of_indicator body _ (by decide) h
  simp [fetchPage, bucketStatus, hdet]

theorem C1_witness :
    containsSub (lowerStr ("<p>Checking Your Browser before access</p>".toList))
        ("checking your browser".toList) = true
    ∧ ((fetchPage Stats.init
          (.ok ⟨200, .ok ("<p>Checking Your Browser before access</p>".toList),
            "text/html"⟩)).2.blocked = true
      ∧ (fetchPage Stats.init
          (.ok ⟨200, .ok ("<p>Checking Your Browser before access</p>".toList),
            "text/html"⟩)).2.success = false
      ∧ (fetchPage Stats.init
          (.ok ⟨200, .ok ("<p>Checking Your Browser before access</p>".toList),
            "text/html"⟩)).1.blockedCount = Stats.init.blockedCount + 1) :=
  ⟨by decide, C1_status200_signature_is_blocked Stats.init _ "text/html" (by decide)⟩

/-- C2 counterexample: the admission gate of `crawl` performs no
normalization before its atomic check-and-insert, so two URLs that differ
only in a trailing fragment are both admitted: the second call returns true,
where the claim requires false. -/
theorem C2_counterexample :
    (crawlAdmit [] "https://x/p#frag1").1 = true
    ∧ (crawlAdmit (crawlAdmit [] "https://x/p#frag1").2 "https://x/p#frag2").1
        = true := by
  decide

/-- C2 amended: the `crawl` admission gate deduplicates only on the exact raw
URL string (a repeated identical call returns false, but fragment variants
are admitted separately); normalization-insensitive idempotence holds for
the PDF-capture admission gate, which applies `normalizeURL` (clear the
fragment, rewrite an empty path to `/`) before the check-and-insert: for any
two URLs with equal normal forms the second admission returns false, and the
two fragment variants have equal normal forms. -/
theorem C2_amended (v w : List String) (a b l : String)
    (hab : normalizeURL a = normalizeURL b) :
    (crawlForPDFAdmit (crawlForPDFAdmit v a).2 b).1 = false
    ∧ (crawlAdmit (crawlAdmit w l).2 l).1 = false
    ∧ normalizeURL "https://x/p#frag1" = normalizeURL "https://x/p#frag2" := by
  refine ⟨?_, ?_, by decide⟩
  · simp only [crawlForPDFAdmit, ← hab]
    by_cases hm : normalizeURL a ∈ v
    · simp [hm]
    · simp [hm]
  · simp only [crawlAdmit]
    by_cases hm : l ∈ w
    · simp [hm]
    · simp [hm]

theorem C2_witness :
    normalizeURL "https://x/p#frag1" = normalizeURL "https://x/p#frag2"
    ∧ ((crawlForPDFAdmit
          (crawlForPDFAdmit [] "https://x/p#frag1").2 "https://x/p#frag2").1 = false
      ∧ (crawlAdmit (crawlAdmit [] "https://y/q").2 "https://y/q").1 = false
      ∧ normalizeURL "https://x/p#frag1" = normalizeURL "https://x/p#frag2") :=
  ⟨by decide, C2_amended [] [] "https://x/p#frag1" "https://x/p#frag2" "https://y/q"
    (by decide)⟩

/-- C3 counterexample: in a run with an alternative entry point configured,
`Start` pre-seeds the start URL into the blocked queue without incrementing
the blocked counter, so after the first retry pass `BlockedRetried = 1`
exceeds `BlockedCount = 0` — the claimed chain
`BlockedRecovered ≤ BlockedRetried ≤ BlockedCount` fails at this run point. -/
theorem C3_counterexample :
    ¬ ((startWithAltEntries 0 3 ["https://site.test/alt"] "https://site.test/"
          (fun _ _ => .netError ("connection refused".toList))
          (fun _ _ => .netError ("connection refused".toList))).stats.blockedRetried
        ≤ (startWithAltEntries 0 3 ["https://site.test/alt"] "https://site.test/"
          (fun _ _ => .netError ("connection refused".toList))
          (fun _ _ => .netError ("connection refused".toList))).stats.blockedCount) := by
  decide

/-- C3 amended: of the claimed chain, `BlockedRecovered ≤ BlockedRetried`
does hold at every point of a run — it is preserved by the fetch-with-retry
operation and by each blocked-retry pass, and holds at the end of every
modelled orchestrated run — while `BlockedRetried ≤ BlockedCount` fails when
alternative entry points pre-seed the start URL into the blocked queue (and
when an entry is retried on several passes), as the counterexample shows. -/
theorem C3_amended :
    (∀ (maxRetries : Nat) (link : String) (responses : Nat → FetchInput)
        (s : CrawlState), recoveredWithinRetried s →
        recoveredWithinRetried (fetchWithRetry maxRetries link responses s))
    ∧ (∀ (cfgPasses : Nat) (outcome : String → FetchInput) (s : CrawlState),
        recoveredWithinRetried s →
        recoveredWithinRetried (retryBlockedPages cfgPasses outcome s))
    ∧ (∀ (maxRetries cfgPasses : Nat) (altEntries : List String) (startU : String)
        (phase1 : String → Nat → FetchInput)
        (retryOutcome : Nat → String → FetchInput),
        recoveredWithinRetried
          (startWithAltEntries maxRetries cfgPasses altEntries startU phase1
            retryOutcome)) :=
  ⟨fetchWithRetry_recRet, retryBlockedPages_recRet, startWithAltEntries_recRet⟩

theorem C3_witness :
    recoveredWithinRetried CrawlState.init
    ∧ recoveredWithinRetried
        (fetchWithRetry 0 "https://site.test/"
          (fun _ => .netError ("connection refused".toList)) CrawlState.init) := by
  constructor
  · simp [recoveredWithinRetried, CrawlState.init, Stats.init]
  · exact C3_amended.1 0 "https://site.test/"
      (fun _ => .netError ("connection refused".toList)) CrawlState.init
      (by simp [recoveredWithinRetried, CrawlState.init, Stats.init])

@[simp] theorem bucketStatus_pagesChecked (st : Stats) (c : Nat) :
    (bucketStatus st c).pagesChecked = st.pagesChecked := by
  simp only [bucketStatus]; split_ifs <;> simp

@[simp] theorem bucketStatus_retryCount (st : Stats) (c : Nat) :
    (bucketStatus st c).retryCount = st.retryCount := by
  simp only [bucketStatus]; split_ifs <;> simp

@[simp] theorem bucketStatus_errorCount (st : Stats) (c : Nat) :
    (bucketStatus st c).errorCount = st.errorCount := by
  simp only [bucketStatus]; split_ifs <;> simp

@[simp] theorem bucketStatus_blockedCount (st : Stats) (c : Nat) :
    (bucketStatus st c).blockedCount = st.blockedCount := by
  simp only [bucketStatus]; split_ifs <;> simp

/-- The classification of an ordinary HTTP failure (4xx/5xx other than
403/503/429) in `fetchPage`: not a success, not blocked, a `status` error. -/
theorem fetchPage_ordinary (st : Stats) (code : Nat)
    (br : Except (List Char) (List Char)) (ct : String) (h4 : 400 ≤ code)
    (h403 : code ≠ 403) (h503 : code ≠ 503) (h429 : code ≠ 429) :
    fetchPage st (.ok ⟨code, br, ct⟩)
      = (bucketStatus { st with pagesChecked := st.pagesChecked + 1 } code,
          ⟨false, false, some (.statusErr code)⟩) := by
  simp [fetchPage, h403, h503, h429, h4]

/-- Proof abbreviation: the crawl state after one ordinary-failure iteration
of the retry loop (retry bump when past the first attempt, page check, and
status bucketing). -/
def ordNext (s : CrawlState) (attempt code : Nat) : CrawlState :=
  let s1 :=
    if 0 < attempt then
      { s with stats := { s.stats with retryCount := s.stats.retryCount + 1 } }
    else s
  { s1 with stats :=
      bucketStatus { s1.stats with pagesChecked := s1.stats.pagesChecked + 1 } code }

@[simp] theorem ordNext_pagesChecked (s : CrawlState) (a c : Nat) :
    (ordNext s a c).stats.pagesChecked = s.stats.pagesChecked + 1 := by
  simp only [ordNext]; split_ifs <;> simp

@[simp] theorem ordNext_retryCount (s : CrawlState) (a c : Nat) :
    (ordNext s a c).stats.retryCount
      = s.stats.retryCount + (if 0 < a then 1 else 0) := by
  simp only [ordNext]; split_ifs <;> simp

@[simp] theorem ordNext_errorCount (s : CrawlState) (a c : Nat) :
    (ordNext s a c).stats.errorCount = s.stats.errorCount := by
  simp only [ordNext]; split_ifs <;> simp

@[simp] theorem ordNext_blockedCount (s : CrawlState) (a c : Nat) :
    (ordNext s a c).stats.blockedCount = s.stats.blockedCount := by
  simp only [ordNext]; split_ifs <;> simp

@[simp] theorem ordNext_blockedQueue (s : CrawlState) (a c : Nat) :
    (ordNext s a c).blockedQueue = s.blockedQueue := by
  simp only [ordNext]; split_ifs <;> simp

@[simp] theorem ordNext_visited (s : CrawlState) (a c : Nat) :
    (ordNext s a c).visited = s.visited := by
  simp only [ordNext]; split_ifs <;> simp

theorem fetchWithRetryLoop_ord_step (link : String) (responses : Nat → FetchInput)
    (fuel attempt : Nat) (le : Option ErrMsg) (s : CrawlState) (code : Nat)
    (br : Except (List Char) (List Char)) (ct : String)
    (hresp : responses attempt = .ok ⟨code, br, ct⟩) (h4 : 400 ≤ code)
    (h403 : code ≠ 403) (h503 : code ≠ 503) (h429 : code ≠ 429) :
    fetchWithRetryLoop link responses (fuel + 1) attempt le s
      = fetchWithRetryLoop link responses fuel (attempt + 1)
          (some (.statusErr code)) (ordNext s attempt code) := by
  by_cases ha : 0 < attempt <;>
    simp [fetchWithRetryLoop, hresp, fetchPage_ordinary _ _ _ _ h4 h403 h503 h429,
      ErrMsg.hasNoSuchHost, ordNext, ha]

/-- Behavior of the retry loop when every attempt yields an ordinary HTTP
failure: the loop runs all `fuel` iterations (one page check each, a retry
bump on every attempt after the first), then counts a single error; the
blocked counter, the blocked queue and the frontier are untouched. -/
theorem fetchWithRetryLoop_ordinary (link : String) (responses : Nat → FetchInput)
    (hord : ∀ i, ∃ code br ct, responses i = .ok ⟨code, br, ct⟩
      ∧ 400 ≤ code ∧ code ≠ 403 ∧ code ≠ 503 ∧ code ≠ 429) :
    ∀ (fuel attempt : Nat) (le : Option ErrMsg) (s : CrawlState),
      (fetchWithRetryLoop link responses (fuel + 1) attempt le s).stats.pagesChecked
          = s.stats.pagesChecked + (fuel + 1)
      ∧ (fetchWithRetryLoop link responses (fuel + 1) attempt le s).stats.retryCount
          = s.stats.retryCount + fuel + (if 0 < attempt then 1 else 0)
      ∧ (fetchWithRetryLoop link responses (fuel + 1) attempt le s).stats.errorCount
          = s.stats.errorCount + 1
      ∧ (fetchWithRetryLoop link responses (fuel + 1) attempt le s).stats.blockedCount
          = s.stats.blockedCount
      ∧ (fetchWithRetryLoop link responses (fuel + 1) attempt le s).blockedQueue
          = s.blockedQueue
      ∧ (fetchWithRetryLoop link responses (fuel + 1) attempt le s).visited
          = s.visited := by
  intro fuel
  induction fuel with
  | zero =>
    intro attempt le s
    obtain ⟨code, br, ct, hresp, h4, h403, h503, h429⟩ := hord attempt
    rw [fetchWithRetryLoop_ord_step link responses 0 attempt le s code br ct hresp
      h4 h403 h503 h429]
    obtain ⟨a1, a2, a3, a4, a5, a6, a7⟩ :=
      applyFinalError_effect (ordNext s attempt code) (some (.statusErr code))
    have ha3 : (applyFinalError (ordNext s attempt code)
        (some (.statusErr code))).stats.errorCount
        = (ordNext s attempt code).stats.errorCount + 1 := by
      simp [applyFinalError]
    simp only [fetchWithRetryLoop] at *
    refine ⟨?_, ?_, ?_, ?_, ?_, ?_⟩ <;> simp_all
  | succ n ih =>
    intro attempt le s
    obtain ⟨code, br, ct, hresp, h4, h403, h503, h429⟩ := hord attempt
    rw [fetchWithRetryLoop_ord_step link responses (n + 1) attempt le s code br ct
      hresp h4 h403 h503 h429]
    obtain ⟨i1, i2, i3, i4, i5, i6⟩ :=
      ih (attempt + 1) (some (.statusErr code)) (ordNext s attempt code)
    refine ⟨?_, ?_, ?_, ?_, ?_, ?_⟩ <;> simp_all <;> omega

/-- C4 counterexample: a 404 response does not stop the retry loop — with
`MaxRetries = 1` the crawler performs a second attempt on the same URL
(two page checks, one retry bump), where the claim requires that no further
attempts are made after such a response. -/
theorem C4_counterexample :
    (fetchWithRetry 1 "https://site.test/missing"
        (fun _ => .ok ⟨404, .ok [], "text/html"⟩)
        CrawlState.init).stats.pagesChecked = 2
    ∧ (fetchWithRetry 1 "https://site.test/missing"
        (fun _ => .ok ⟨404, .ok [], "text/html"⟩)
        CrawlState.init).stats.retryCount = 1 := by
  decide

/-- C4 amended: an ordinary HTTP failure status (404, or any other 4xx/5xx
that is not 403/503/429) is treated as a retryable error: `fetchWithRetry`
keeps attempting the URL — `MaxRetries + 1` attempts in total, with a retry
bump for each attempt after the first — counts a single error after
exhausting the attempts, and never classifies the URL as blocked or inserts
it into the blocked queue. -/
theorem C4_amended (maxRetries : Nat) (link : String) (responses : Nat → FetchInput)
    (s : CrawlState)
    (hord : ∀ i, ∃ code br ct, responses i = .ok ⟨code, br, ct⟩
      ∧ 400 ≤ code ∧ code ≠ 403 ∧ code ≠ 503 ∧ code ≠ 429) :
    (fetchWithRetry maxRetries link responses s).stats.pagesChecked
        = s.stats.pagesChecked + (maxRetries + 1)
    ∧ (fetchWithRetry maxRetries link responses s).stats.retryCount
        = s.stats.retryCount + maxRetries
    ∧ (fetchWithRetry maxRetries link responses s).stats.errorCount
        = s.stats.errorCount + 1
    ∧ (fetchWithRetry maxRetries link responses s).stats.blockedCount
        = s.stats.blockedCount
    ∧ (fetchWithRetry maxRetries link responses s).blockedQueue = s.blockedQueue := by
  obtain ⟨h1, h2, h3, h4, h5, h6⟩ :=
    fetchWithRetryLoop_ordinary link responses hord maxRetries 0 none s
  simp only [fetchWithRetry] at *
  refine ⟨h1, ?_, h3, h4, h5⟩
  simpa using h2

theorem C4_witness :
    (∀ i : Nat, ∃ code br ct,
        (fun _ : Nat => FetchInput.ok ⟨404, .ok [], "text/html"⟩) i = .ok ⟨code, br, ct⟩
        ∧ 400 ≤ code ∧ code ≠ 403 ∧ code ≠ 503 ∧ code ≠ 429)
    ∧ (fetchWithRetry 1 "https://site.test/missing"
        (fun _ => .ok ⟨404, .ok [], "text/html"⟩)
        CrawlState.init).stats.errorCount = CrawlState.init.stats.errorCount + 1 :=
  ⟨fun _ => ⟨404, .ok [], "text/html", rfl, by omega, by omega, by omega, by omega⟩,
    (C4_amended 1 "https://site.test/missing"
      (fun _ => .ok ⟨404, .ok [], "text/html"⟩) CrawlState.init
      (fun _ => ⟨404, .ok [], "text/html", rfl, by omega, by omega, by omega,
        by omega⟩)).2.2.1⟩

/-- C5 counterexample: a retried entry whose re-fetch fails with an ordinary
404 is not re-inserted into the blocked queue — it is retried (counter = 1)
yet absent from the queue afterwards, where the claim requires re-insertion
on every failure. -/
theorem C5_counterexample :
    (retryBlockedPages 3 (fun _ => .ok ⟨404, .ok [], "text/html"⟩)
        { CrawlState.init with
          blockedQueue := [("https://site.test/b", ⟨"https://site.test/b", 0, none⟩)]
        }).stats.blockedRetried = 1
    ∧ lookupAssoc
        (retryBlockedPages 3 (fun _ => .ok ⟨404, .ok [], "text/html"⟩)
          { CrawlState.init with
            blockedQueue := [("https://site.test/b", ⟨"https://site.test/b", 0, none⟩)]
          }).blockedQueue "https://site.test/b" = none := by
  decide

/-- The failure classification under which `fetchPageForRetry` re-inserts
the URL into the blocked queue: the re-fetch itself fails as blocked — a
403/503/429 status, or a body matching the bot-protection signatures. -/
def retryFailsBlocked : FetchInput → Bool
  | .netError _ => false
  | .ok resp =>
    if 400 ≤ resp.statusCode then
      decide (resp.statusCode = 403 ∨ resp.statusCode = 503 ∨ resp.statusCode = 429)
    else
      match resp.bodyResult with
      | .error _ => false
      | .ok body => detectBotProtection body

@[simp] theorem retryFailsBlocked_netError (msg : List Char) :
    retryFailsBlocked (.netError msg) = false := rfl

theorem retryFailsBlocked_ok (code : Nat) (br : Except (List Char) (List Char))
    (ct : String) :
    retryFailsBlocked (.ok ⟨code, br, ct⟩)
      = if 400 ≤ code then decide (code = 403 ∨ code = 503 ∨ code = 429)
        else
          match br with
          | .error _ => false
          | .ok body => detectBotProtection body := rfl

/-- The condition under which `fetchPageForRetry` reports success: a
round-trip with a sub-400 status, a readable body, and no bot-protection
signature. -/
def retrySucceeds : FetchInput → Bool
  | .netError _ => false
  | .ok resp =>
    if 400 ≤ resp.statusCode then false
    else
      match resp.bodyResult with
      | .error _ => false
      | .ok body => ! detectBotProtection body

@[simp] theorem retrySucceeds_netError (msg : List Char) :
    retrySucceeds (.netError msg) = false := rfl

theorem retrySucceeds_ok (code : Nat) (br : Except (List Char) (List Char))
    (ct : String) :
    retrySucceeds (.ok ⟨code, br, ct⟩)
      = if 400 ≤ code then false
        else
          match br with
          | .error _ => false
          | .ok body => ! detectBotProtection body := rfl

/-- Helper: a key just erased from the visited set is not a member. -/
theorem not_mem_eraseVisited (v : List String) (k : String) :
    k ∉ eraseVisited v k := by
  simp [eraseVisited]

/-- Helper: a key just stored into the visited set is a member. -/
theorem mem_insertVisited (v : List String) (k : String) :
    k ∈ insertVisited v k := by
  simp only [insertVisited]
  split_ifs with h
  · exact h
  · exact List.mem_cons_self k v

/-- C5 amended: in a blocked-retry pass, an entry whose attempt count has
reached `blockedRetryPasses` is skipped entirely (the state is unchanged, so
it is never re-fetched); every other entry is retried — the retried counter
is bumped — and is removed from both the blocked queue and the frontier
(`visited.Delete`, permitting re-admission): after the step the URL is
absent from the frontier whenever the re-fetch did not succeed, while a
successful re-fetch stores it back into the frontier and leaves it out of
the queue.  A retried entry is re-inserted into the blocked queue with its
attempt count incremented exactly when the re-fetch fails as blocked
(status 403/503/429 or a bot-protection body); a re-fetch that fails for
any other reason (or succeeds) leaves the entry absent from the queue. -/
theorem C5_amended (cfgPasses : Nat) (outcome : String → FetchInput) (s : CrawlState)
    (url : String) (page : BlockedPage) :
    (cfgPasses ≤ page.attempts → retryOneEntry cfgPasses outcome s url page = s)
    ∧ (page.attempts < cfgPasses →
        (retryOneEntry cfgPasses outcome s url page).stats.blockedRetried
          = s.stats.blockedRetried + 1)
    ∧ (page.attempts < cfgPasses → retryFailsBlocked (outcome url) = true →
        lookupAssoc (retryOneEntry cfgPasses outcome s url page).blockedQueue url
          = some ⟨url, page.attempts + 1, none⟩)
    ∧ (page.attempts < cfgPasses → retryFailsBlocked (outcome url) = false →
        lookupAssoc (retryOneEntry cfgPasses outcome s url page).blockedQueue url
          = none)
    ∧ (page.attempts < cfgPasses → retrySucceeds (outcome url) = false →
        url ∉ (retryOneEntry cfgPasses outcome s url page).visited)
    ∧ (page.attempts < cfgPasses → retrySucceeds (outcome url) = true →
        url ∈ (retryOneEntry cfgPasses outcome s url page).visited
        ∧ lookupAssoc (retryOneEntry cfgPasses outcome s url page).blockedQueue url
            = none) := by
  refine ⟨?_, ?_, ?_, ?_, ?_, ?_⟩
  · intro hskip
    simp [retryOneEntry, hskip]
  · intro hdo
    have hn : ¬ cfgPasses ≤ page.attempts := by omega
    simp only [retryOneEntry, hn, if_false]
    obtain ⟨hr1, hr2⟩ := fetchPageForRetry_retryPair
      { s with
        stats := { s.stats with blockedRetried := s.stats.blockedRetried + 1 },
        blockedQueue := deleteAssoc s.blockedQueue url,
        visited := eraseVisited s.visited url } url (page.attempts + 1) (outcome url)
    split_ifs <;> simp_all
  · intro hdo hfb
    have hn : ¬ cfgPasses ≤ page.attempts := by omega
    simp only [retryOneEntry, hn, if_false]
    rcases ho : outcome url with msg | ⟨code, br, ct⟩
    · rw [ho, retryFailsBlocked_netError] at hfb
      exact absurd hfb (by simp)
    · rw [ho, retryFailsBlocked_ok] at hfb
      by_cases h4 : 400 ≤ code
      · rw [if_pos h4] at hfb
        rcases of_decide_eq_true hfb with h | h | h <;> subst h <;>
          simp [fetchPageForRetry, lookupAssoc_store]
      · rw [if_neg h4] at hfb
        rcases br with e | body
        · simp at hfb
        · replace hfb : detectBotProtection body = true := by simpa using hfb
          simp [fetchPageForRetry, h4, hfb, lookupAssoc_store]
  · intro hdo hfb
    have hn : ¬ cfgPasses ≤ page.attempts := by omega
    simp only [retryOneEntry, hn, if_false]
    rcases ho : outcome url with msg | ⟨code, br, ct⟩
    · simp [fetchPageForRetry, lookupAssoc_delete]
    · rw [ho, retryFailsBlocked_ok] at hfb
      by_cases h4 : 400 ≤ code
      · rw [if_pos h4] at hfb
        have hne := of_decide_eq_false hfb
        have h1 : code ≠ 403 := fun h => hne (Or.inl h)
        have h2 : code ≠ 503 := fun h => hne (Or.inr (Or.inl h))
        have h3 : code ≠ 429 := fun h => hne (Or.inr (Or.inr h))
        simp [fetchPageForRetry, h4, h1, h2, h3, lookupAssoc_delete]
      · rw [if_neg h4] at hfb
        rcases br with e | body
        · simp [fetchPageForRetry, h4, lookupAssoc_delete]
        · replace hfb : detectBotProtection body = false := by simpa using hfb
          simp [fetchPageForRetry, h4, hfb, lookupAssoc_delete]
  · intro hdo hsf
    have hn : ¬ cfgPasses ≤ page.attempts := by omega
    simp only [retryOneEntry, hn, if_false]
    rcases ho : outcome url with msg | ⟨code, br, ct⟩
    · simp [fetchPageForRetry, not_mem_eraseVisited]
    · rw [ho, retrySucceeds_ok] at hsf
      by_cases h4 : 400 ≤ code
      · by_cases hb : code = 403 ∨ code = 503 ∨ code = 429
        · rcases hb with h | h | h <;> subst h <;>
            simp [fetchPageForRetry, not_mem_eraseVisited]
        · have h1 : code ≠ 403 := fun h => hb (Or.inl h)
          have h2 : code ≠ 503 := fun h => hb (Or.inr (Or.inl h))
          have h3 : code ≠ 429 := fun h => hb (Or.inr (Or.inr h))
          simp [fetchPageForRetry, h4, h1, h2, h3, not_mem_eraseVisited]
      · rw [if_neg h4] at hsf
        rcases br with e | body
        · simp [fetchPageForRetry, h4, not_mem_eraseVisited]
        · replace hsf : detectBotProtection body = true := by simpa using hsf
          simp [fetchPageForRetry, h4, hsf, not_mem_eraseVisited]
  · intro hdo hsf
    have hn : ¬ cfgPasses ≤ page.attempts := by omega
    simp only [retryOneEntry, hn, if_false]
    rcases ho : outcome url with msg | ⟨code, br, ct⟩
    · rw [ho, retrySucceeds_netError] at hsf
      exact absurd hsf (by simp)
    · rw [ho, retrySucceeds_ok] at hsf
      by_cases h4 : 400 ≤ code
      · rw [if_pos h4] at hsf
        exact absurd hsf (by simp)
      · rw [if_neg h4] at hsf
        rcases br with e | body
        · exact absurd hsf (by simp)
        · replace hsf : detectBotProtection body = false := by simpa using hsf
          constructor
          · simp [fetchPageForRetry, h4, hsf, mem_insertVisited]
          · simp [fetchPageForRetry, h4, hsf, lookupAssoc_delete]

theorem C5_witness :
    (3 ≤ (3 : Nat)
      ∧ retryOneEntry 3 (fun _ => .ok ⟨404, .ok [], "text/html"⟩) CrawlState.init
          "https://site.test/b" ⟨"https://site.test/b", 3, none⟩ = CrawlState.init)
    ∧ ((0 : Nat) < 3
      ∧ retryFailsBlocked (FetchInput.ok ⟨403, .ok [], "text/html"⟩) = true
      ∧ lookupAssoc
          (retryOneEntry 3 (fun _ => .ok ⟨403, .ok [], "text/html"⟩) CrawlState.init
            "https://site.test/b"
            ⟨"https://site.test/b", 0, none⟩).blockedQueue "https://site.test/b"
          = some ⟨"https://site.test/b", 0 + 1, none⟩)
    ∧ ((0 : Nat) < 3
      ∧ retrySucceeds (FetchInput.ok ⟨404, .ok [], "text/html"⟩) = false
      ∧ "https://site.test/b" ∉
          (retryOneEntry 3 (fun _ => .ok ⟨404, .ok [], "text/html"⟩) CrawlState.init
            "https://site.test/b" ⟨"https://site.test/b", 0, none⟩).visited) :=
  ⟨⟨by omega,
    (C5_amended 3 (fun _ => .ok ⟨404, .ok [], "text/html"⟩) CrawlState.init
      "https://site.test/b" ⟨"https://site.test/b", 3, none⟩).1 (by decide)⟩,
    ⟨by omega, by decide,
    (C5_amended 3 (fun _ => .ok ⟨403, .ok [], "text/html"⟩) CrawlState.init
      "https://site.test/b" ⟨"https://site.test/b", 0, none⟩).2.2.1 (by decide)
      (by decide)⟩,
    ⟨by omega, by decide,
    (C5_amended 3 (fun _ => .ok ⟨404, .ok [], "text/html"⟩) CrawlState.init
      "https://site.test/b" ⟨"https://site.test/b", 0, none⟩).2.2.2.2.1 (by decide)
      (by decide)⟩⟩

/-- C6 counterexample: "cloudflare" is a standalone entry of the code's
signature list, not a co-occurrence signature — a 200 response whose body
contains "cloudflare" but not "ray id" (and no other indicator of the list)
IS classified blocked, where the claim requires that it is not. -/
theorem C6_counterexample :
    containsSub (lowerStr ("<p>Served by cloudflare</p>".toList))
        ("cloudflare".toList) = true
    ∧ containsSub (lowerStr ("<p>Served by cloudflare</p>".toList))
        ("ray id".toList) = false
    ∧ (botIndicators.filter (fun ind => ind ≠ "cloudflare".toList)).all
        (fun ind =>
          ! containsSub (lowerStr ("<p>Served by cloudflare</p>".toList)) ind) = true
    ∧ (fetchPage Stats.init
        (.ok ⟨200, .ok ("<p>Served by cloudflare</p>".toList),
          "text/html"⟩)).2.blocked = true := by
  decide

/-- C6 amended: "cloudflare" and "ray id" are each standalone signatures of
`detectBotProtection`: any body containing "cloudflare" alone
(case-insensitively) triggers the classifier, and a 200 response with such a
body is classified blocked. -/
theorem C6_amended (st : Stats) (body : List Char) (ct : String)
    (h : containsSub (lowerStr body) ("cloudflare".toList) = true) :
    detectBotProtection body = true
    ∧ (fetchPage st (.ok ⟨200, .ok body, ct⟩)).2.blocked = true := by
  have hdet := detectBotProtection_of_indicator body _ (by decide) h
  exact ⟨hdet, by simp [fetchPage, bucketStatus, hdet]⟩

theorem C6_witness :
    containsSub (lowerStr ("<p>Served by cloudflare</p>".toList))
        ("cloudflare".toList) = true
    ∧ (detectBotProtection ("<p>Served by cloudflare</p>".toList) = true
      ∧ (fetchPage Stats.init
          (.ok ⟨200, .ok ("<p>Served by cloudflare</p>".toList),
            "text/html"⟩)).2.blocked = true) :=
  ⟨by decide, C6_amended Stats.init _ "text/html" (by decide)⟩

/-- C7: when a fetch returns HTTP 403 (likewise 503 or 429) on the first
attempt, the retry loop is abandoned immediately — exactly one page check —
an entry for the URL appears in the blocked queue with attempt count 0, the
blocked counter is incremented by one, and the error counter is unchanged. -/
theorem C7_blocked_status_immediate (maxRetries : Nat) (link : String)
    (responses : Nat → FetchInput) (s : CrawlState) (code : Nat)
    (br : Except (List Char) (List Char)) (ct : String)
    (hcode : code = 403 ∨ code = 503 ∨ code = 429)
    (h0 : responses 0 = .ok ⟨code, br, ct⟩) :
    lookupAssoc (fetchWithRetry maxRetries link responses s).blockedQueue link
        = some ⟨link, 0,
            some (if code = 429 then .rateLimited else .blockedStatus code)⟩
    ∧ (fetchWithRetry maxRetries link responses s).stats.blockedCount
        = s.stats.blockedCount + 1
    ∧ (fetchWithRetry maxRetries link responses s).stats.errorCount
        = s.stats.errorCount
    ∧ (fetchWithRetry maxRetries link responses s).stats.pagesChecked
        = s.stats.pagesChecked + 1 := by
  rcases hcode with h | h | h <;> subst h <;>
    simp [fetchWithRetry, fetchWithRetryLoop, h0, fetchPage, bucketStatus,
      lookupAssoc_store]

theorem C7_witness :
    ((403 : Nat) = 403 ∨ (403 : Nat) = 503 ∨ (403 : Nat) = 429)
    ∧ lookupAssoc
        (fetchWithRetry 3 "https://example.test/blocked"
          (fun _ => .ok ⟨403, .ok [], "text/html"⟩)
          CrawlState.init).blockedQueue "https://example.test/blocked"
        = some ⟨"https://example.test/blocked", 0,
            some (if (403 : Nat) = 429 then .rateLimited else .blockedStatus 403)⟩ :=
  ⟨Or.inl rfl,
    (C7_blocked_status_immediate 3 "https://example.test/blocked"
      (fun _ => .ok ⟨403, .ok [], "text/html"⟩) CrawlState.init 403 (.ok [])
      "text/html" (Or.inl rfl) rfl).1⟩

/-- C8 counterexample: the link extractor resolves a relative href against
the package-global `baseURL` (the crawl's start URL), not the page's own
URL.  In a crawl started at "https://h/", an href "sub.html" found on page
"https://h/a/b/" is enqueued as "https://h/sub.html" — which differs from the
claim's expected "https://h/a/sub.html" (and from the page-own-URL
resolution "https://h/a/b/sub.html", computed in the last conjunct). -/
theorem C8_counterexample :
    hrefAction (parseGoURL "https://h/") "sub.html"
        = .enqueue "https://h/sub.html"
    ∧ "https://h/sub.html" ≠ "https://h/a/sub.html"
    ∧ (resolveReference (parseGoURL "https://h/a/b/") (parseGoURL "sub.html")).render
        = "https://h/a/b/sub.html" := by
  decide

/-- C8 amended: for every href handled by `extractInternalLinks`, a href
that survives the scheme filter is resolved against the crawl's start URL
(`baseURL`) — the page URL plays no part — and enqueued; a cross-host result
is dropped and counted (the external-skip counter is incremented and the
state is otherwise unchanged); a href with a non-http(s) scheme is skipped
outright. -/
theorem C8_amended (maxRetries : Nat) (responses : Nat → FetchInput) (base : GoURL)
    (s : CrawlState) (href : String) :
    (∀ next, hrefAction base href = .enqueue next →
        next = (resolveReference base (parseGoURL href)).render)
    ∧ (hrefAction base href = .external →
        processHref maxRetries responses base s href
          = { s with stats :=
              { s.stats with skippedExternal := s.stats.skippedExternal + 1 } })
    ∧ (hrefAction base href = .skipped →
        processHref maxRetries responses base s href = s) := by
  refine ⟨?_, ?_, ?_⟩
  · intro next h
    simp only [hrefAction] at h
    split_ifs at h
    cases h
    rfl
  · intro h
    simp [processHref, h]
  · intro h
    simp [processHref, h]

theorem C8_witness :
    hrefAction (parseGoURL "https://h/") "https://other.test/c" = .external
    ∧ processHref 0 (fun _ => .netError []) (parseGoURL "https://h/")
        CrawlState.init "https://other.test/c"
      = { CrawlState.init with stats :=
          { CrawlState.init.stats with
            skippedExternal := CrawlState.init.stats.skippedExternal + 1 } } :=
  ⟨by decide,
    (C8_amended 0 (fun _ => .netError []) (parseGoURL "https://h/")
      CrawlState.init "https://other.test/c").2.1 (by decide)⟩

/-- C9: at no point in a run do more than `MaxConcurrency` fetch tasks hold
a semaphore slot — and network I/O happens only while holding one, since a
task acquires its slot before `fetchWithRetry` and releases it by `defer` on
every return path: in every reachable state of the task pool the number of
fetching tasks is at most the capacity. -/
theorem C9_concurrency_bound (cap : Nat) (ts : List TaskPhase)
    (h : SchedReachable cap ts) : countFetching ts ≤ cap := by
  induction h with
  | init => simp [countFetching]
  | @step ts ts' hreach hstep ih =>
    cases hstep with
    | spawn =>
      rw [countFetching_append]
      simpa [countFetching] using ih
    | acquire i hget hcap =>
      have hset := countFetching_set ts i .waiting .fetching hget
      simp at hset
      omega
    | release i hget =>
      have hset := countFetching_set ts i .fetching .done hget
      simp at hset
      omega

theorem C9_witness : countFetching [TaskPhase.fetching] ≤ 2 := by
  have h0 : SchedReachable 2 [] := SchedReachable.init
  have h1 : SchedReachable 2 [TaskPhase.waiting] := h0.step (SchedStep.spawn [])
  have h2 : SchedReachable 2 [TaskPhase.fetching] :=
    h1.step (SchedStep.acquire [TaskPhase.waiting] 0 rfl (by decide))
  exact C9_concurrency_bound 2 [TaskPhase.fetching] h2

/-- C10: the sitemap crawler's bot-protection predicate is strictly weaker
than the main crawler's: every body flagged by `detectSitemapBotProtection`
is flagged by `detectBotProtection` — each co-occurrence pattern and each
short-page trigger contains a substring from the main indicator list — while
the converse fails: a body consisting of "cloudflare" alone is flagged only
by the main predicate. -/
theorem C10_sitemap_weaker :
    (∀ body, detectSitemapBotProtection body = true → detectBotProtection body = true)
    ∧ detectBotProtection ("cloudflare".toList) = true
    ∧ detectSitemapBotProtection ("cloudflare".toList) = false := by
  refine ⟨?_, by decide, by decide⟩
  intro body h
  have step : ∀ ind : List Char, ind ∈ botIndicators →
      containsSub (lowerStr body) ind = true → detectBotProtection body = true :=
    fun ind hm hc => detectBotProtection_of_indicator body ind hm hc
  simp only [detectSitemapBotProtection, sitemapChallengePatterns, List.any_cons,
    List.any_nil, List.all_cons, List.all_nil, Bool.and_true, Bool.or_false] at h
  split_ifs at h with hA hB
  · simp only [Bool.or_eq_true, Bool.and_eq_true] at hA
    rcases hA with ⟨h1, _⟩ | ⟨h1, _⟩ | ⟨h1, _⟩ | ⟨h1, _⟩ | h1 | ⟨h1, _⟩ | ⟨h1, _⟩
      | ⟨h1, _⟩
    all_goals exact step _ (by decide) h1
  · simp only [Bool.and_eq_true, Bool.or_eq_true, decide_eq_true_eq] at hB
    rcases hB with ⟨_, hc | hc⟩
    · exact step _ (by decide) hc
    · refine step ("please enable javascript".toList) (by decide) ?_
      rw [containsSub_iff] at hc ⊢
      have hpre : "please enable javascript".toList
          <:+: "please enable javascript and cookies".toList := by decide
      exact hpre.trans hc

theorem C10_witness :
    detectBotProtection ("Checking your browser - please wait".toList) = true :=
  C10_sitemap_weaker.1 ("Checking your browser - please wait".toList) (by decide)

end Webcrawler
